import Mathlib

/-!
Shallow embedding of `src/Jeux.py` (SkyrockGamingAnalyzer and
GamingScenarioSimulator).

Conventions of the embedding:
* Python floats are modelled as `ℚ`; Python's `round(x, 2)` (round half to
  even, two decimal places) is `round2`.
* Python `int(x)` applied to a float truncates toward zero: `trunc_int`.
* A Python dict `{year: record}` is modelled as an association list in
  insertion order.  The scenario simulator needs Python's object identity:
  there a dict is an association list of years to *references* (`RefDict`)
  into a mutable store (`Store`), and `dict.copy()` copies only the outer
  key-to-reference pairs (`dict_copy`), exactly as Python's shallow copy does.
* A method body that can raise a Python exception is embedded as `Except`:
  `AErr.emptyDataset` stands for the `ValueError` raised by `max()`/`min()`
  on an empty sequence, `AErr.missingMarketData` for the `KeyError` of a
  missing market-size year, `AErr.divisionByZero` for `ZeroDivisionError`.
  `AErr.invalidParameter` belongs to the specification's error taxonomy;
  no operation of the source ever produces it.
-/

namespace Jeux

/-- One per-year record of `gaming_data`:
`{'revenue': …, 'players': …, 'bets': …, 'type': …}` (revenue and bets in
millions of euros).  The Python key `'type'` is the field `ptype`. -/
structure YearRec where
  revenue : ℚ
  players : ℤ
  bets : ℚ
  ptype : String
deriving DecidableEq

/-- Failure modes of the analyzer's methods (see the module docstring). -/
inductive AErr where
  | emptyDataset
  | missingMarketData
  | divisionByZero
  | invalidParameter
deriving DecidableEq

/-- A Python dict `{year: record}` read as a value (insertion order kept). -/
abbrev Dataset := List (ℤ × YearRec)

/-- Round half to even, the rounding of Python 3's builtin `round`. -/
def rhe (q : ℚ) : ℤ :=
  if 2 * (q - ⌊q⌋) < 1 then ⌊q⌋
  else if 1 < 2 * (q - ⌊q⌋) then ⌊q⌋ + 1
  else if ⌊q⌋ % 2 = 0 then ⌊q⌋ else ⌊q⌋ + 1

/-- Python's `round(q, 2)`. -/
def round2 (q : ℚ) : ℚ := (rhe (q * 100) : ℚ) / 100

/-- Python's `int(q)` on a float: truncation toward zero. -/
def trunc_int (q : ℚ) : ℤ := if 0 ≤ q then ⌊q⌋ else -⌊-q⌋

/-- Dict lookup `l[y]`, returning `none` where Python raises `KeyError`
(or where `y in l` is false). -/
def alookup (y : ℤ) : List (ℤ × α) → Option α
  | [] => none
  | p :: ps => if p.1 = y then some p.2 else alookup y ps

/-- Result dict of `calculate_cumulative_revenue`.  The Python key
`'periode'` is the f-string `"{period_start}-{period_end}"`; it is kept here
as the two integers. -/
structure CumulRev where
  revenue_total : ℚ
  bets_total : ℚ
  players_max : ℤ
  revenue_moyen_an : ℚ
  period_start : ℤ
  period_end : ℤ
deriving DecidableEq

/-- `SkyrockGamingAnalyzer.calculate_cumulative_revenue` (src/Jeux.py
lines 60-74), as a function of the instance's `gaming_data`.  On an empty
dict the Python `max([])` raises before any result is built. -/
def calculate_cumulative_revenue (d : Dataset) : Except AErr CumulRev :=
  let total_revenue := (d.map fun p => p.2.revenue).sum
  let total_bets := (d.map fun p => p.2.bets).sum
  match (d.map fun p => p.2.players).max?, (d.map Prod.fst).min?,
        (d.map Prod.fst).max? with
  | some pmax, some ymin, some ymax =>
      .ok ⟨round2 total_revenue, round2 total_bets, pmax,
           round2 (total_revenue / (d.length : ℚ)), ymin, ymax⟩
  | _, _, _ => .error .emptyDataset

/-- One value of the `profits` dict built by `estimate_profits`. -/
structure ProfitRec where
  revenue : ℚ
  profit : ℚ
  margin_rate : ℚ
deriving DecidableEq

/-- `SkyrockGamingAnalyzer.estimate_profits` (src/Jeux.py lines 76-91):
per-year profit is `round(revenue * margin_rate, 2)`, the total is the sum
of the rounded per-year profits.  No validation of `margin_rate` occurs. -/
def estimate_profits (d : Dataset) (margin_rate : ℚ) :
    List (ℤ × ProfitRec) × ℚ :=
  let profits := d.map fun p =>
    (p.1, ProfitRec.mk p.2.revenue (round2 (p.2.revenue * margin_rate))
      margin_rate)
  (profits, (profits.map fun p => p.2.profit).sum)

/-- `SkyrockGamingAnalyzer.analyze_market_share` (src/Jeux.py lines 93-111),
with the method's local `market_size` dict as the parameter `market_size`.
The scale factor 1000 (billions to millions) is the source's literal.  A
year of the dataset missing from `market_size` raises `KeyError` at that
iteration, i.e. the whole call fails. -/
def analyze_market_share (market_size : List (ℤ × ℚ)) :
    Dataset → Except AErr (List (ℤ × ℚ))
  | [] => .ok []
  | (y, r) :: rest =>
    match alookup y market_size with
    | none => .error .missingMarketData
    | some msize =>
      match analyze_market_share market_size rest with
      | .error e => .error e
      | .ok tail => .ok ((y, round2 (r.revenue / (msize * 1000) * 100)) :: tail)

/-- Python `max(items, key=lambda x: x[1]['revenue'])` starting from `x`:
the running maximum is replaced only on a strictly greater key, so the
first maximal item in iteration order wins. -/
def max_by_revenue (x : ℤ × YearRec) (xs : List (ℤ × YearRec)) :
    ℤ × YearRec :=
  xs.foldl (fun acc y => if acc.2.revenue < y.2.revenue then y else acc) x

/-- Python `min(items, key=lambda x: x[1]['revenue'])` starting from `x`. -/
def min_by_revenue (x : ℤ × YearRec) (xs : List (ℤ × YearRec)) :
    ℤ × YearRec :=
  xs.foldl (fun acc y => if y.2.revenue < acc.2.revenue then y else acc) x

/-- The best-year/worst-year computation of
`generate_comprehensive_report` (src/Jeux.py lines 247-252). -/
def best_worst_year (d : Dataset) :
    Option ((ℤ × YearRec) × (ℤ × YearRec)) :=
  match d with
  | [] => none
  | x :: xs => some (max_by_revenue x xs, min_by_revenue x xs)

/-- The growth computation of `generate_comprehensive_report`
(src/Jeux.py lines 254-258): first/last year are `min`/`max` of the keys,
and Python raises `ZeroDivisionError` when the first year's revenue is 0. -/
def growth_rate (d : Dataset) : Except AErr ℚ :=
  match (d.map Prod.fst).min?, (d.map Prod.fst).max? with
  | some first_year, some last_year =>
    match alookup first_year d, alookup last_year d with
    | some fr, some lr =>
      if fr.revenue = 0 then .error .divisionByZero
      else .ok ((lr.revenue - fr.revenue) / fr.revenue * 100)
    | _, _ => .error .emptyDataset
  | _, _ => .error .emptyDataset

/-! ### The scenario simulator, with Python object identity

`GamingScenarioSimulator.__init__` stores `base_analyzer.gaming_data.copy()`
and `simulate_scenario` starts from `self.base_data.copy()`: both copies are
shallow, so all three dicts map each year to the *same* record object.  The
loop then mutates those shared records in place (`*=`, item assignment). -/

/-- A heap of per-year record objects, addressed by reference. -/
abbrev Store := Nat → YearRec

/-- A Python dict `{year: record-object}`: years paired with references. -/
abbrev RefDict := List (ℤ × Nat)

/-- Python `dict.copy()`: a new outer dict with the same key-to-reference
pairs — the record objects are shared, not copied. -/
def dict_copy (d : RefDict) : RefDict := d

/-- In-place mutation of the record object at reference `r`. -/
def update_store (s : Store) (r : Nat) (v : YearRec) : Store :=
  fun n => if n = r then v else s n

/-- The body of the simulation loop for one year:
`revenue *= m`, `players = int(players * m)`, `bets *= m`. -/
def apply_multiplier (m : ℚ) (v : YearRec) : YearRec :=
  { v with
    revenue := v.revenue * m
    players := trunc_int ((v.players : ℚ) * m)
    bets := v.bets * m }

/-- One iteration of the loop of `simulate_scenario`: the guard
`if year in simulated_data` skips years absent from the dict, otherwise the
shared record object is mutated in place. -/
def simulate_step (d : RefDict) (s : Store) (adj : ℤ × ℚ) : Store :=
  match alookup adj.1 d with
  | some r => update_store s r (apply_multiplier adj.2 (s r))
  | none => s

/-- `GamingScenarioSimulator.simulate_scenario` (src/Jeux.py lines 368-380):
returns the (shallowly) copied dict together with the store after the
in-place mutations.  `base_data` itself still maps its years into the same
store, so its post-call view goes through the same final store. -/
def simulate_scenario (base_data : RefDict)
    (revenue_multipliers : List (ℤ × ℚ)) (s : Store) : RefDict × Store :=
  let simulated_data := dict_copy base_data
  (simulated_data,
   revenue_multipliers.foldl (simulate_step simulated_data) s)

/-- Reading a reference-dict through a store gives the dict as a value. -/
def view (d : RefDict) (s : Store) : Dataset :=
  d.map fun p => (p.1, s p.2)

/-! ### The concrete data of the source -/

/-- The fourteen records of `_create_gaming_revenue_data`
(src/Jeux.py lines 26-41), in insertion order 2010..2023. -/
def gaming_records : List YearRec :=
  [⟨0.8, 15000, 12.5, "Lancement"⟩,
   ⟨1.5, 28000, 25.0, "Croissance"⟩,
   ⟨2.2, 42000, 38.5, "Croissance"⟩,
   ⟨2.8, 55000, 52.0, "Croissance"⟩,
   ⟨3.5, 68000, 68.5, "Pic"⟩,
   ⟨4.2, 75000, 85.0, "Pic"⟩,
   ⟨4.0, 72000, 78.0, "Stabilisation"⟩,
   ⟨3.8, 70000, 72.5, "Stabilisation"⟩,
   ⟨3.2, 65000, 65.0, "Declin"⟩,
   ⟨2.5, 55000, 55.0, "Declin"⟩,
   ⟨1.8, 40000, 42.5, "COVID"⟩,
   ⟨1.2, 30000, 35.0, "Declin"⟩,
   ⟨0.9, 25000, 28.5, "Residuel"⟩,
   ⟨0.7, 22000, 25.0, "Residuel"⟩]

/-- The heap holding the fourteen record objects at references 0..13. -/
def gaming_store : Store :=
  fun n => gaming_records.getD n ⟨0, 0, 0, ""⟩

/-- `gaming_data` as a dict of references: year 2010+i at reference i. -/
def gaming_refs : RefDict :=
  [(2010, 0), (2011, 1), (2012, 2), (2013, 3), (2014, 4), (2015, 5),
   (2016, 6), (2017, 7), (2018, 8), (2019, 9), (2020, 10), (2021, 11),
   (2022, 12), (2023, 13)]

/-- The two-record example dataset of the specification:
the 2010 and 2011 records of the source data. -/
def example_dataset : Dataset :=
  [(2010, ⟨0.8, 15000, 12.5, "Lancement"⟩),
   (2011, ⟨1.5, 28000, 25.0, "Croissance"⟩)]

/-- The `market_size` dict hardcoded in `analyze_market_share`
(src/Jeux.py lines 98-102), in billions of euros. -/
def market_size_data : List (ℤ × ℚ) :=
  [(2010, 0.8), (2011, 1.2), (2012, 1.6), (2013, 2.0), (2014, 2.4),
   (2015, 2.8), (2016, 3.2), (2017, 3.6), (2018, 4.0), (2019, 4.4),
   (2020, 4.8), (2021, 5.2), (2022, 5.6), (2023, 6.0)]

/-- A one-record store used for concrete simulator inputs. -/
def demo_store : Store := fun _ => ⟨0.8, 15000, 12.5, "Lancement"⟩

/-! ### Helper lemmas -/

instance : Std.Antisymm (fun a b : ℤ => a ≤ b) :=
  ⟨fun h1 h2 => le_antisymm h1 h2⟩

lemma int_max?_eq_some_iff {a : ℤ} {xs : List ℤ} :
    xs.max? = some a ↔ a ∈ xs ∧ ∀ b ∈ xs, b ≤ a :=
  List.max?_eq_some_iff (fun _ => le_refl _) (fun _ _ => max_choice _ _)
    (fun _ _ _ => max_le_iff)

lemma int_min?_eq_some_iff {a : ℤ} {xs : List ℤ} :
    xs.min? = some a ↔ a ∈ xs ∧ ∀ b ∈ xs, a ≤ b :=
  List.min?_eq_some_iff (fun _ => le_refl _) (fun _ _ => min_choice _ _)
    (fun _ _ _ => le_min_iff)

lemma alookup_eq_none {α : Type} {l : List (ℤ × α)} {y : ℤ} :
    alookup y l = none ↔ y ∉ l.map Prod.fst := by
  induction l with
  | nil => simp [alookup]
  | cons p ps ih =>
    by_cases h : p.1 = y
    · simp [alookup, h]
    · simp only [alookup, if_neg h, List.map_cons, List.mem_cons, ih]
      constructor
      · rintro hy (h1 | h2)
        · exact h h1.symm
        · exact hy h2
      · intro hy h2
        exact hy (Or.inr h2)

lemma alookup_mem {α : Type} {l : List (ℤ × α)} {y : ℤ} {v : α}
    (h : alookup y l = some v) : (y, v) ∈ l := by
  induction l with
  | nil => simp [alookup] at h
  | cons p ps ih =>
    by_cases hp : p.1 = y
    · simp only [alookup, if_pos hp, Option.some.injEq] at h
      have he : (y, v) = p := by
        rcases p with ⟨a, b⟩
        simp only [Prod.mk.injEq]
        exact ⟨hp.symm, h.symm⟩
      rw [he]
      exact List.mem_cons_self _ _
    · simp only [alookup, if_neg hp] at h
      exact List.mem_cons_of_mem _ (ih h)

lemma alookup_of_mem {α : Type} {l : List (ℤ × α)}
    (hnd : (l.map Prod.fst).Nodup) {y : ℤ} {v : α} (h : (y, v) ∈ l) :
    alookup y l = some v := by
  induction l with
  | nil => simp at h
  | cons p ps ih =>
    rw [List.map_cons, List.nodup_cons] at hnd
    rcases List.mem_cons.mp h with h1 | h2
    · rw [alookup, if_pos (congrArg Prod.fst h1).symm, ← h1]
    · have hne : p.1 ≠ y := by
        intro he
        exact hnd.1 (he ▸ List.mem_map_of_mem Prod.fst h2)
      rw [alookup, if_neg hne]
      exact ih hnd.2 h2

lemma alookup_isSome {α : Type} {l : List (ℤ × α)} {y : ℤ} :
    (alookup y l).isSome = true ↔ y ∈ l.map Prod.fst := by
  rw [Option.isSome_iff_ne_none, ne_eq, alookup_eq_none, not_not]

end Jeux

namespace Jeux

/-! ### The claims -/

/-- Claim C4: on the empty dataset `calculate_cumulative_revenue` fails
(Python's `max([])` raises before any value is produced, so no NaN or
Infinity can escape the division), and on every non-empty dataset it
returns a complete result without error. -/
theorem c4_empty_dataset_fails :
    calculate_cumulative_revenue ([] : Dataset) = .error .emptyDataset ∧
    ∀ (d : Dataset), d ≠ [] → ∃ c, calculate_cumulative_revenue d = .ok c := by
  refine ⟨rfl, ?_⟩
  intro d hd
  obtain ⟨x, xs, rfl⟩ := List.exists_cons_of_ne_nil hd
  exact ⟨_, rfl⟩

/-- Witness for C4 at the two-record example dataset. -/
theorem c4_empty_dataset_fails_witness :
    ∃ c, calculate_cumulative_revenue example_dataset = .ok c :=
  c4_empty_dataset_fails.2 example_dataset (List.cons_ne_nil _ _)

/-- Claim C10: adjustment years absent from the dataset are silently
ignored by `simulate_scenario`: the returned dict has exactly the keys of
the input dict, and the store mutations are those of the adjustments whose
year is present in the dataset. -/
theorem c10_unknown_years_ignored (refs : RefDict) (adjs : List (ℤ × ℚ))
    (s : Store) :
    (simulate_scenario refs adjs s).1 = refs ∧
    (simulate_scenario refs adjs s).2
      = (simulate_scenario refs
          (adjs.filter fun p => (alookup p.1 refs).isSome) s).2 := by
  refine ⟨rfl, ?_⟩
  show adjs.foldl (simulate_step refs) s
    = (adjs.filter fun p => (alookup p.1 refs).isSome).foldl
        (simulate_step refs) s
  induction adjs generalizing s with
  | nil => rfl
  | cons a rest ih =>
    by_cases h : (alookup a.1 refs).isSome
    · simp only [List.foldl_cons, List.filter_cons, h, if_true]
      exact ih _
    · have hn : alookup a.1 refs = none :=
        Option.not_isSome_iff_eq_none.mp (by simpa using h)
      have hb : (alookup a.1 refs).isSome = false := by rw [hn]; rfl
      simp only [List.foldl_cons, List.filter_cons, hb, Bool.false_eq_true,
        if_false]
      have hs : simulate_step refs s a = s := by
        simp only [simulate_step, hn]
      rw [hs]
      exact ih _

/-- Claim C8 (amended): neither function validates its parameter.
`estimate_profits` accepts any margin rate, also outside `(0, 1]`, and
returns the usual rounded per-year profits; `simulate_scenario` applies a
non-positive multiplier like any other. -/
theorem c8_no_validation :
    (∀ (d : Dataset) (r : ℚ), r ≤ 0 ∨ 1 < r →
      estimate_profits d r
        = (d.map fun p =>
            (p.1, ProfitRec.mk p.2.revenue (round2 (p.2.revenue * r)) r),
           (d.map fun p => round2 (p.2.revenue * r)).sum)) ∧
    (∀ (refs : RefDict) (s : Store) (y : ℤ) (ref : Nat) (m : ℚ),
      m ≤ 0 → alookup y refs = some ref →
      (simulate_scenario refs [(y, m)] s).2 ref
        = apply_multiplier m (s ref)) := by
  constructor
  · intro d r _
    dsimp only [estimate_profits]
    rw [List.map_map]
    rfl
  · intro refs s y ref m _ hl
    show simulate_step refs s (y, m) ref = apply_multiplier m (s ref)
    simp [simulate_step, hl, update_store]

/-- Witness for C8 at margin rate 2 and multiplier -1. -/
theorem c8_no_validation_witness :
    estimate_profits example_dataset 2
      = (example_dataset.map fun p =>
          (p.1, ProfitRec.mk p.2.revenue (round2 (p.2.revenue * 2)) 2),
         (example_dataset.map fun p => round2 (p.2.revenue * 2)).sum) ∧
    (simulate_scenario [((2010 : ℤ), 0)] [((2010 : ℤ), -1)] demo_store).2 0
      = apply_multiplier (-1) (demo_store 0) :=
  ⟨c8_no_validation.1 example_dataset 2 (Or.inr (by norm_num)),
   c8_no_validation.2 _ demo_store 2010 0 (-1) (by norm_num) rfl⟩

/-- Claim C6: the growth rate is
`(lastYearRevenue - firstYearRevenue) / firstYearRevenue * 100` with
first/last the minimum/maximum year, it fails with the division-by-zero
error when the first year's revenue is 0, and on the example dataset it is
87.5. -/
theorem c6_growth_rate :
    (∀ (d : Dataset) (fy ly : ℤ) (fr lr : YearRec),
      (d.map Prod.fst).min? = some fy → (d.map Prod.fst).max? = some ly →
      alookup fy d = some fr → alookup ly d = some lr →
      (fr.revenue ≠ 0 →
        growth_rate d = .ok ((lr.revenue - fr.revenue) / fr.revenue * 100)) ∧
      (fr.revenue = 0 → growth_rate d = .error .divisionByZero)) ∧
    growth_rate example_dataset = .ok 87.5 := by
  constructor
  · intro d fy ly fr lr hmin hmax hf hl
    constructor
    · intro hne
      simp only [growth_rate, hmin, hmax, hf, hl, if_neg hne]
    · intro heq
      simp only [growth_rate, hmin, hmax, hf, hl, if_pos heq]
  · have hmin : (example_dataset.map Prod.fst).min? = some 2010 := rfl
    have hmax : (example_dataset.map Prod.fst).max? = some 2011 := rfl
    have hf : alookup 2010 example_dataset
        = some ⟨0.8, 15000, 12.5, "Lancement"⟩ := rfl
    have hl : alookup 2011 example_dataset
        = some ⟨1.5, 28000, 25.0, "Croissance"⟩ := rfl
    simp only [growth_rate, hmin, hmax, hf, hl]
    norm_num

/-- Witness for C6 at the example dataset. -/
theorem c6_growth_rate_witness :
    growth_rate example_dataset = .ok (((1.5 : ℚ) - 0.8) / 0.8 * 100) :=
  (c6_growth_rate.1 example_dataset 2010 2011
      ⟨0.8, 15000, 12.5, "Lancement"⟩ ⟨1.5, 28000, 25.0, "Croissance"⟩
      rfl rfl rfl rfl).1 (by norm_num)

/-- The aggregate characterization behind claims C3 and C4: on a non-empty
dataset `calculate_cumulative_revenue` returns the rounded revenue and
wagered totals, the maximum player count, the rounded yearly average, and
the minimum/maximum year. -/
lemma cumul_spec (d : Dataset) (hd : d ≠ []) :
    ∃ c, calculate_cumulative_revenue d = .ok c ∧
      c.revenue_total = round2 ((d.map fun p => p.2.revenue).sum) ∧
      c.bets_total = round2 ((d.map fun p => p.2.bets).sum) ∧
      c.players_max ∈ d.map (fun p => p.2.players) ∧
      (∀ q ∈ d.map (fun p => p.2.players), q ≤ c.players_max) ∧
      c.revenue_moyen_an
        = round2 (((d.map fun p => p.2.revenue).sum) / (d.length : ℚ)) ∧
      c.period_start ∈ d.map Prod.fst ∧
      (∀ y ∈ d.map Prod.fst, c.period_start ≤ y) ∧
      c.period_end ∈ d.map Prod.fst ∧
      (∀ y ∈ d.map Prod.fst, y ≤ c.period_end) := by
  obtain ⟨x, xs, rfl⟩ := List.exists_cons_of_ne_nil hd
  obtain ⟨pm, hpm⟩ : ∃ a, ((x :: xs).map fun p => p.2.players).max? = some a :=
    ⟨_, rfl⟩
  obtain ⟨ymin, hymin⟩ : ∃ a, ((x :: xs).map Prod.fst).min? = some a :=
    ⟨_, rfl⟩
  obtain ⟨ymax, hymax⟩ : ∃ a, ((x :: xs).map Prod.fst).max? = some a :=
    ⟨_, rfl⟩
  have hok : calculate_cumulative_revenue (x :: xs)
      = .ok ⟨round2 (((x :: xs).map fun p => p.2.revenue).sum),
             round2 (((x :: xs).map fun p => p.2.bets).sum), pm,
             round2 ((((x :: xs).map fun p => p.2.revenue).sum)
               / ((x :: xs).length : ℚ)), ymin, ymax⟩ := by
    simp only [calculate_cumulative_revenue, hpm, hymin, hymax]
  have hpm2 := int_max?_eq_some_iff.mp hpm
  have hymin2 := int_min?_eq_some_iff.mp hymin
  have hymax2 := int_max?_eq_some_iff.mp hymax
  exact ⟨_, hok, rfl, rfl, hpm2.1, hpm2.2, rfl,
    hymin2.1, hymin2.2, hymax2.1, hymax2.2⟩

/-- Evaluation of `calculate_cumulative_revenue` on the two-record example
dataset: the rounded totals coincide with the exact ones there. -/
lemma cumul_example_eval :
    calculate_cumulative_revenue example_dataset
      = .ok ⟨2.3, 37.5, 28000, 1.15, 2010, 2011⟩ := by
  have hpm : (example_dataset.map fun p => p.2.players).max?
      = some 28000 := rfl
  have hmin : (example_dataset.map Prod.fst).min? = some 2010 := rfl
  have hmax : (example_dataset.map Prod.fst).max? = some 2011 := rfl
  simp only [calculate_cumulative_revenue, hpm, hmin, hmax]
  simp only [example_dataset, List.map_cons, List.map_nil, List.sum_cons,
    List.sum_nil, List.length_cons, List.length_nil, round2, rhe]
  norm_num

/-- Claim C3 (amended): each aggregate equals the specified formula
*rounded to two decimal places* (the source applies `round(x, 2)` to the
revenue total, the wagered total, and the yearly average); the revenue
total is order-independent; and the example dataset yields exactly the
values of the claim. -/
theorem c3_cumulative_totals :
    (∀ (d : Dataset), d ≠ [] →
      ∃ c, calculate_cumulative_revenue d = .ok c ∧
        c.revenue_total = round2 ((d.map fun p => p.2.revenue).sum) ∧
        c.bets_total = round2 ((d.map fun p => p.2.bets).sum) ∧
        c.players_max ∈ d.map (fun p => p.2.players) ∧
        (∀ q ∈ d.map (fun p => p.2.players), q ≤ c.players_max) ∧
        c.revenue_moyen_an
          = round2 (((d.map fun p => p.2.revenue).sum) / (d.length : ℚ)) ∧
        c.period_start ∈ d.map Prod.fst ∧
        (∀ y ∈ d.map Prod.fst, c.period_start ≤ y) ∧
        c.period_end ∈ d.map Prod.fst ∧
        (∀ y ∈ d.map Prod.fst, y ≤ c.period_end)) ∧
    (∀ (d d' : Dataset), d ≠ [] → d.Perm d' →
      (calculate_cumulative_revenue d').map CumulRev.revenue_total
        = Except.ok (round2 ((d.map fun p => p.2.revenue).sum))) ∧
    calculate_cumulative_revenue example_dataset
      = .ok ⟨2.3, 37.5, 28000, 1.15, 2010, 2011⟩ := by
  refine ⟨cumul_spec, ?_, ?_⟩
  · intro d d' hd hperm
    have hd' : d' ≠ [] := by
      intro h
      rw [h] at hperm
      exact hd hperm.eq_nil
    obtain ⟨c, hok, h1, _⟩ := cumul_spec d' hd'
    have hsum : (d'.map fun p => p.2.revenue).sum
        = (d.map fun p => p.2.revenue).sum :=
      ((hperm.map fun p => p.2.revenue).sum_eq).symm
    rw [hok]
    show Except.ok c.revenue_total = _
    rw [h1, hsum]
  · exact cumul_example_eval

/-- Witness for C3 (amended) at the example dataset. -/
theorem c3_cumulative_totals_witness :
    ∃ c, calculate_cumulative_revenue example_dataset = .ok c ∧
      c.revenue_total
        = round2 ((example_dataset.map fun p => p.2.revenue).sum) ∧
      c.bets_total = round2 ((example_dataset.map fun p => p.2.bets).sum) ∧
      c.players_max ∈ example_dataset.map (fun p => p.2.players) ∧
      (∀ q ∈ example_dataset.map (fun p => p.2.players),
        q ≤ c.players_max) ∧
      c.revenue_moyen_an
        = round2 (((example_dataset.map fun p => p.2.revenue).sum)
            / (example_dataset.length : ℚ)) ∧
      c.period_start ∈ example_dataset.map Prod.fst ∧
      (∀ y ∈ example_dataset.map Prod.fst, c.period_start ≤ y) ∧
      c.period_end ∈ example_dataset.map Prod.fst ∧
      (∀ y ∈ example_dataset.map Prod.fst, y ≤ c.period_end) :=
  c3_cumulative_totals.1 example_dataset (List.cons_ne_nil _ _)

/-- The single-record input on which claim C3 as stated fails. -/
def c3_input : Dataset := [(2020, ⟨0.001, 5, 0.001, "X"⟩)]

/-- Counterexample for C3 as stated: on a dataset whose revenue sum is
0.001, `calculate_cumulative_revenue` reports a revenue total of 0 (the
sum rounded to two decimals), not the sum itself. -/
theorem c3_counterexample :
    calculate_cumulative_revenue c3_input = .ok ⟨0, 0, 5, 0, 2020, 2020⟩ ∧
    (c3_input.map fun p => p.2.revenue).sum = 0.001 ∧ (0 : ℚ) ≠ 0.001 := by
  refine ⟨?_, by norm_num [c3_input], by norm_num⟩
  have hpm : (c3_input.map fun p => p.2.players).max? = some 5 := rfl
  have hmin : (c3_input.map Prod.fst).min? = some 2020 := rfl
  have hmax : (c3_input.map Prod.fst).max? = some 2020 := rfl
  simp only [calculate_cumulative_revenue, hpm, hmin, hmax]
  simp only [c3_input, List.map_cons, List.map_nil, List.sum_cons,
    List.sum_nil, List.length_cons, List.length_nil, round2, rhe]
  norm_num

/-- Claim C5 (amended): when every dataset year is in the market-size
series the call returns, per year, the share
`revenue / (marketSize[year] * 1000) * 100` *rounded to two decimals*
(the source applies `round(share, 2)`); when any dataset year is missing
from the series the whole call fails with the missing-market-data error
(a `KeyError` in the source), never a silent skip. -/
theorem c5_market_share :
    (∀ (ms : List (ℤ × ℚ)) (d : Dataset),
      (∀ y ∈ d.map Prod.fst, (alookup y ms).isSome) →
      analyze_market_share ms d
        = .ok (d.map fun p =>
            (p.1, round2 (p.2.revenue
              / ((alookup p.1 ms).getD 0 * 1000) * 100)))) ∧
    (∀ (ms : List (ℤ × ℚ)) (d : Dataset) (y : ℤ),
      y ∈ d.map Prod.fst → alookup y ms = none →
      analyze_market_share ms d = .error .missingMarketData) := by
  constructor
  · intro ms d h
    induction d with
    | nil => rfl
    | cons p ps ih =>
      rcases p with ⟨y, r⟩
      have hy : (alookup y ms).isSome :=
        h y (by simp)
      obtain ⟨m, hm⟩ := Option.isSome_iff_exists.mp hy
      have hrest := ih fun z hz => h z (by simp [hz])
      simp only [analyze_market_share, hm, hrest, List.map_cons,
        Option.getD_some]
  · intro ms d y hy hnone
    induction d with
    | nil => simp at hy
    | cons p ps ih =>
      rcases p with ⟨z, r⟩
      rw [List.map_cons, List.mem_cons] at hy
      by_cases hz : alookup z ms = none
      · simp only [analyze_market_share, hz]
      · obtain ⟨m, hm⟩ := Option.ne_none_iff_exists'.mp hz
        have hyps : y ∈ ps.map Prod.fst := by
          rcases hy with h1 | h2
          · subst h1
            rw [hm] at hnone
            cases hnone
          · exact h2
        simp only [analyze_market_share, hm, ih hyps]

/-- Witness for C5 (amended): the full market series covers both example
years, and a series containing only 2010 makes the call fail. -/
theorem c5_market_share_witness :
    analyze_market_share market_size_data example_dataset
      = .ok (example_dataset.map fun p =>
          (p.1, round2 (p.2.revenue
            / ((alookup p.1 market_size_data).getD 0 * 1000) * 100))) ∧
    analyze_market_share [((2010 : ℤ), (0.8 : ℚ))] example_dataset
      = .error .missingMarketData :=
  ⟨c5_market_share.1 market_size_data example_dataset (by decide),
   c5_market_share.2 [((2010 : ℤ), (0.8 : ℚ))] example_dataset 2011
     (by decide) rfl⟩

/-- The input on which claim C5's unrounded share formula fails: revenue 1
against a market of 0.3 billion gives the share 1/3, reported as 0.33. -/
def c5_input : Dataset := [(2010, ⟨1, 10, 1, "L"⟩)]

/-- Counterexample for C5 as stated: the returned share is the rounded
value 0.33, not `revenue / (marketSize * 1000) * 100 = 1/3`. -/
theorem c5_counterexample :
    analyze_market_share [((2010 : ℤ), (0.3 : ℚ))] c5_input
      = .ok [(2010, 0.33)] ∧
    (0.33 : ℚ) ≠ (1 : ℚ) / (0.3 * 1000) * 100 := by
  constructor
  · have hm : alookup 2010 [((2010 : ℤ), (0.3 : ℚ))] = some 0.3 := rfl
    simp only [c5_input, analyze_market_share, hm, round2, rhe]
    norm_num
  · norm_num

/-- Half-even rounding moves a rational by at most one half. -/
lemma rhe_err (q : ℚ) : |(rhe q : ℚ) - q| ≤ 1 / 2 := by
  have h1 : (⌊q⌋ : ℚ) ≤ q := Int.floor_le q
  have h2 : q < ⌊q⌋ + 1 := Int.lt_floor_add_one q
  rw [rhe]
  split_ifs with h3 h4 h5
  · rw [abs_le]
    constructor <;> linarith
  · rw [abs_le]
    push_cast
    constructor <;> linarith
  · rw [abs_le]
    constructor <;> linarith
  · rw [abs_le]
    push_cast
    constructor <;> linarith

/-- Rounding to two decimal places moves a rational by at most 1/200. -/
lemma round2_err (q : ℚ) : |round2 q - q| ≤ 1 / 200 := by
  have h := rhe_err (q * 100)
  rw [round2]
  have he : (rhe (q * 100) : ℚ) / 100 - q
      = ((rhe (q * 100) : ℚ) - q * 100) / 100 := by ring
  rw [he, abs_div, abs_of_pos (by norm_num : (0 : ℚ) < 100)]
  linarith

/-- The total of the rounded per-year profits is within `n/200` of the
margin rate times the exact revenue sum. -/
lemma profits_sum_err (d : Dataset) (r : ℚ) :
    |((d.map fun p => round2 (p.2.revenue * r)).sum)
      - r * ((d.map fun p => p.2.revenue).sum)| ≤ (d.length : ℚ) / 200 := by
  induction d with
  | nil => simp
  | cons p ps ih =>
    simp only [List.map_cons, List.sum_cons, List.length_cons]
    have h1 := round2_err (p.2.revenue * r)
    have tri := abs_add (round2 (p.2.revenue * r) - p.2.revenue * r)
      (((ps.map fun p => round2 (p.2.revenue * r)).sum)
        - r * ((ps.map fun p => p.2.revenue).sum))
    have heq : round2 (p.2.revenue * r)
          + (ps.map fun p => round2 (p.2.revenue * r)).sum
          - r * (p.2.revenue + (ps.map fun p => p.2.revenue).sum)
        = (round2 (p.2.revenue * r) - p.2.revenue * r)
          + (((ps.map fun p => round2 (p.2.revenue * r)).sum)
            - r * ((ps.map fun p => p.2.revenue).sum)) := by ring
    rw [heq]
    push_cast
    linarith

/-- Claim C7 (amended): for any margin rate in `(0, 1]` the per-year
profits are the revenues times the rate *rounded to two decimals*, the
total is the exact sum of those rounded profits, and that total is within
`count/200` of rate times the exact revenue sum (it need not equal
`r × revenueTotal` exactly). -/
theorem c7_estimate_profits :
    ∀ (d : Dataset) (r : ℚ), 0 < r → r ≤ 1 →
      (estimate_profits d r).1
        = d.map (fun p =>
            (p.1, ProfitRec.mk p.2.revenue (round2 (p.2.revenue * r)) r)) ∧
      (estimate_profits d r).2
        = ((estimate_profits d r).1.map fun p => p.2.profit).sum ∧
      |(estimate_profits d r).2 - r * ((d.map fun p => p.2.revenue).sum)|
        ≤ (d.length : ℚ) / 200 := by
  intro d r _ _
  refine ⟨rfl, rfl, ?_⟩
  have h : (estimate_profits d r).2
      = (d.map fun p => round2 (p.2.revenue * r)).sum := by
    dsimp only [estimate_profits]
    rw [List.map_map]
    rfl
  rw [h]
  exact profits_sum_err d r

/-- Witness for C7 (amended) at the example dataset with margin 0.18. -/
theorem c7_estimate_profits_witness :
    (estimate_profits example_dataset 0.18).1
      = example_dataset.map (fun p =>
          (p.1, ProfitRec.mk p.2.revenue (round2 (p.2.revenue * 0.18))
            0.18)) ∧
    (estimate_profits example_dataset 0.18).2
      = ((estimate_profits example_dataset 0.18).1.map
          fun p => p.2.profit).sum ∧
    |(estimate_profits example_dataset 0.18).2
      - 0.18 * ((example_dataset.map fun p => p.2.revenue).sum)|
      ≤ (example_dataset.length : ℚ) / 200 :=
  c7_estimate_profits example_dataset 0.18 (by norm_num) (by norm_num)

/-- Counterexample for C7 as stated: on the example dataset with margin
0.18 the code returns the total 0.41 (sum of the rounded profits 0.14 and
0.27), while `0.18 × revenueTotal = 0.414`, a difference of 0.004 — far
beyond floating-point tolerance — and the 2010 per-year profit is 0.14,
not `0.8 × 0.18 = 0.144`. -/
theorem c7_counterexample :
    (estimate_profits example_dataset 0.18).2 = 0.41 ∧
    (calculate_cumulative_revenue example_dataset).map
        (fun c => (0.18 : ℚ) * c.revenue_total) = .ok 0.414 ∧
    (0.41 : ℚ) ≠ 0.414 ∧
    alookup 2010 (estimate_profits example_dataset 0.18).1
      = some ⟨0.8, 0.14, 0.18⟩ ∧
    (0.14 : ℚ) ≠ 0.8 * 0.18 := by
  have h : (estimate_profits example_dataset 0.18).1
      = [(2010, ⟨0.8, 0.14, 0.18⟩), (2011, ⟨1.5, 0.27, 0.18⟩)] := by
    dsimp only [estimate_profits, example_dataset]
    simp only [List.map_cons, List.map_nil, round2, rhe]
    norm_num
  refine ⟨?_, ?_, by norm_num, ?_, by norm_num⟩
  · have h2 : (estimate_profits example_dataset 0.18).2
        = ((estimate_profits example_dataset 0.18).1.map
            fun p => p.2.profit).sum := rfl
    rw [h2, h]
    norm_num
  · rw [cumul_example_eval]
    show Except.ok ((0.18 : ℚ) * 2.3) = _
    norm_num
  · rw [h]
    rfl

/-- Python's `max` with a key keeps the first maximal element: over a list
whose years strictly increase after `acc`, the fold of
`max_by_revenue` returns an element with maximal revenue, and the earliest
one among ties. -/
lemma max_by_revenue_spec :
    ∀ (xs : List (ℤ × YearRec)) (acc : ℤ × YearRec),
      (∀ p ∈ xs, acc.1 < p.1) → xs.Pairwise (fun a b => a.1 < b.1) →
      (max_by_revenue acc xs = acc ∨ max_by_revenue acc xs ∈ xs) ∧
      acc.2.revenue ≤ (max_by_revenue acc xs).2.revenue ∧
      (∀ p ∈ xs, p.2.revenue ≤ (max_by_revenue acc xs).2.revenue) ∧
      ((max_by_revenue acc xs).2.revenue = acc.2.revenue
        → max_by_revenue acc xs = acc) ∧
      (∀ p ∈ xs, p.2.revenue = (max_by_revenue acc xs).2.revenue
        → (max_by_revenue acc xs).1 ≤ p.1) := by
  intro xs
  induction xs with
  | nil =>
    intro acc _ _
    exact ⟨Or.inl rfl, le_refl _, by simp, fun _ => rfl, by simp⟩
  | cons y ys ih =>
    intro acc hlt hpw
    rw [List.pairwise_cons] at hpw
    by_cases hc : acc.2.revenue < y.2.revenue
    · have hstep : max_by_revenue acc (y :: ys) = max_by_revenue y ys := by
        show max_by_revenue
          (if acc.2.revenue < y.2.revenue then y else acc) ys = _
        rw [if_pos hc]
      obtain ⟨ih1, ih2, ih3, ih4, ih5⟩ := ih y hpw.1 hpw.2
      rw [hstep]
      refine ⟨?_, ?_, ?_, ?_, ?_⟩
      · rcases ih1 with h | h
        · exact Or.inr (by rw [h]; exact List.mem_cons_self _ _)
        · exact Or.inr (List.mem_cons_of_mem _ h)
      · exact le_trans (le_of_lt hc) ih2
      · intro p hp
        rcases List.mem_cons.mp hp with h | h
        · exact h ▸ ih2
        · exact ih3 p h
      · intro he
        exact absurd (lt_of_lt_of_le hc ih2) (by rw [he]; exact lt_irrefl _)
      · intro p hp he
        rcases List.mem_cons.mp hp with h | h
        · have hby : max_by_revenue y ys = y := ih4 (by rw [h] at he; exact he.symm)
          rw [hby, h]
        · exact ih5 p h he
    · have hstep : max_by_revenue acc (y :: ys) = max_by_revenue acc ys := by
        show max_by_revenue
          (if acc.2.revenue < y.2.revenue then y else acc) ys = _
        rw [if_neg hc]
      have hlt2 : ∀ p ∈ ys, acc.1 < p.1 :=
        fun p hp => hlt p (List.mem_cons_of_mem _ hp)
      obtain ⟨ih1, ih2, ih3, ih4, ih5⟩ := ih acc hlt2 hpw.2
      rw [hstep]
      refine ⟨?_, ih2, ?_, ih4, ?_⟩
      · rcases ih1 with h | h
        · exact Or.inl h
        · exact Or.inr (List.mem_cons_of_mem _ h)
      · intro p hp
        rcases List.mem_cons.mp hp with h | h
        · rw [h]
          exact le_trans (not_lt.mp hc) ih2
        · exact ih3 p h
      · intro p hp he
        rcases List.mem_cons.mp hp with h | h
        · have he2 : y.2.revenue = (max_by_revenue acc ys).2.revenue := by
            rw [← h]
            exact he
          have hacc2 : (max_by_revenue acc ys).2.revenue = acc.2.revenue :=
            le_antisymm (by rw [← he2]; exact not_lt.mp hc) ih2
          have hb := ih4 hacc2
          rw [hb, h]
          exact le_of_lt (hlt y (List.mem_cons_self _ _))
        · exact ih5 p h he

/-- Python's `min` with a key keeps the first minimal element. -/
lemma min_by_revenue_spec :
    ∀ (xs : List (ℤ × YearRec)) (acc : ℤ × YearRec),
      (∀ p ∈ xs, acc.1 < p.1) → xs.Pairwise (fun a b => a.1 < b.1) →
      (min_by_revenue acc xs = acc ∨ min_by_revenue acc xs ∈ xs) ∧
      (min_by_revenue acc xs).2.revenue ≤ acc.2.revenue ∧
      (∀ p ∈ xs, (min_by_revenue acc xs).2.revenue ≤ p.2.revenue) ∧
      ((min_by_revenue acc xs).2.revenue = acc.2.revenue
        → min_by_revenue acc xs = acc) ∧
      (∀ p ∈ xs, p.2.revenue = (min_by_revenue acc xs).2.revenue
        → (min_by_revenue acc xs).1 ≤ p.1) := by
  intro xs
  induction xs with
  | nil =>
    intro acc _ _
    exact ⟨Or.inl rfl, le_refl _, by simp, fun _ => rfl, by simp⟩
  | cons y ys ih =>
    intro acc hlt hpw
    rw [List.pairwise_cons] at hpw
    by_cases hc : y.2.revenue < acc.2.revenue
    · have hstep : min_by_revenue acc (y :: ys) = min_by_revenue y ys := by
        show min_by_revenue
          (if y.2.revenue < acc.2.revenue then y else acc) ys = _
        rw [if_pos hc]
      obtain ⟨ih1, ih2, ih3, ih4, ih5⟩ := ih y hpw.1 hpw.2
      rw [hstep]
      refine ⟨?_, ?_, ?_, ?_, ?_⟩
      · rcases ih1 with h | h
        · exact Or.inr (by rw [h]; exact List.mem_cons_self _ _)
        · exact Or.inr (List.mem_cons_of_mem _ h)
      · exact le_trans ih2 (le_of_lt hc)
      · intro p hp
        rcases List.mem_cons.mp hp with h | h
        · exact h ▸ ih2
        · exact ih3 p h
      · intro he
        exact absurd (lt_of_le_of_lt ih2 hc) (by rw [he]; exact lt_irrefl _)
      · intro p hp he
        rcases List.mem_cons.mp hp with h | h
        · have hby : min_by_revenue y ys = y := ih4 (by rw [h] at he; exact he.symm)
          rw [hby, h]
        · exact ih5 p h he
    · have hstep : min_by_revenue acc (y :: ys) = min_by_revenue acc ys := by
        show min_by_revenue
          (if y.2.revenue < acc.2.revenue then y else acc) ys = _
        rw [if_neg hc]
      have hlt2 : ∀ p ∈ ys, acc.1 < p.1 :=
        fun p hp => hlt p (List.mem_cons_of_mem _ hp)
      obtain ⟨ih1, ih2, ih3, ih4, ih5⟩ := ih acc hlt2 hpw.2
      rw [hstep]
      refine ⟨?_, ih2, ?_, ih4, ?_⟩
      · rcases ih1 with h | h
        · exact Or.inl h
        · exact Or.inr (List.mem_cons_of_mem _ h)
      · intro p hp
        rcases List.mem_cons.mp hp with h | h
        · rw [h]
          exact le_trans ih2 (not_lt.mp hc)
        · exact ih3 p h
      · intro p hp he
        rcases List.mem_cons.mp hp with h | h
        · have he2 : y.2.revenue = (min_by_revenue acc ys).2.revenue := by
            rw [← h]
            exact he
          have hacc2 : (min_by_revenue acc ys).2.revenue = acc.2.revenue :=
            le_antisymm ih2 (by rw [← he2]; exact not_lt.mp hc)
          have hb := ih4 hacc2
          rw [hb, h]
          exact le_of_lt (hlt y (List.mem_cons_self _ _))
        · exact ih5 p h he

/-- Claim C9: on every non-empty dataset ordered by strictly increasing
year, `best_worst_year` returns the maximal-revenue year as best and the
minimal-revenue year as worst, with ties resolved to the earliest year in
both cases; on the example dataset best is 2011 and worst is 2010. -/
theorem c9_best_worst_year :
    (∀ (d : Dataset), d.Pairwise (fun a b => a.1 < b.1) → d ≠ [] →
      ∃ b w, best_worst_year d = some (b, w) ∧ b ∈ d ∧ w ∈ d ∧
        (∀ p ∈ d, p.2.revenue ≤ b.2.revenue) ∧
        (∀ p ∈ d, p.2.revenue = b.2.revenue → b.1 ≤ p.1) ∧
        (∀ p ∈ d, w.2.revenue ≤ p.2.revenue) ∧
        (∀ p ∈ d, p.2.revenue = w.2.revenue → w.1 ≤ p.1)) ∧
    best_worst_year example_dataset
      = some ((2011, ⟨1.5, 28000, 25.0, "Croissance"⟩),
              (2010, ⟨0.8, 15000, 12.5, "Lancement"⟩)) := by
  constructor
  · intro d hpw hd
    obtain ⟨x, xs, rfl⟩ := List.exists_cons_of_ne_nil hd
    rw [List.pairwise_cons] at hpw
    obtain ⟨m1, m2, m3, m4, m5⟩ := max_by_revenue_spec xs x hpw.1 hpw.2
    obtain ⟨n1, n2, n3, n4, n5⟩ := min_by_revenue_spec xs x hpw.1 hpw.2
    refine ⟨max_by_revenue x xs, min_by_revenue x xs, rfl, ?_, ?_,
      ?_, ?_, ?_, ?_⟩
    · rcases m1 with h | h
      · rw [h]
        exact List.mem_cons_self _ _
      · exact List.mem_cons_of_mem _ h
    · rcases n1 with h | h
      · rw [h]
        exact List.mem_cons_self _ _
      · exact List.mem_cons_of_mem _ h
    · intro p hp
      rcases List.mem_cons.mp hp with h | h
      · exact h ▸ m2
      · exact m3 p h
    · intro p hp he
      rcases List.mem_cons.mp hp with h | h
      · have := m4 (by rw [← he, h])
        rw [this, h]
      · exact m5 p h he
    · intro p hp
      rcases List.mem_cons.mp hp with h | h
      · exact h ▸ n2
      · exact n3 p h
    · intro p hp he
      rcases List.mem_cons.mp hp with h | h
      · have := n4 (by rw [← he, h])
        rw [this, h]
      · exact n5 p h he
  · simp only [example_dataset, best_worst_year, max_by_revenue,
      min_by_revenue, List.foldl_cons, List.foldl_nil]
    norm_num

/-- Witness for C9 at the example dataset. -/
theorem c9_best_worst_year_witness :
    ∃ b w, best_worst_year example_dataset = some (b, w) ∧
      b ∈ example_dataset ∧ w ∈ example_dataset ∧
      (∀ p ∈ example_dataset, p.2.revenue ≤ b.2.revenue) ∧
      (∀ p ∈ example_dataset, p.2.revenue = b.2.revenue → b.1 ≤ p.1) ∧
      (∀ p ∈ example_dataset, w.2.revenue ≤ p.2.revenue) ∧
      (∀ p ∈ example_dataset, p.2.revenue = w.2.revenue → w.1 ≤ p.1) :=
  c9_best_worst_year.1 example_dataset (by decide)
    (List.cons_ne_nil _ _)

/-- A loop iteration whose year resolves to a different reference (or to
none) leaves the record object at `r` untouched. -/
lemma simulate_step_other (refs : RefDict) (s : Store) (a : ℤ × ℚ) (r : Nat)
    (h : ∀ r2, alookup a.1 refs = some r2 → r2 ≠ r) :
    simulate_step refs s a r = s r := by
  cases ha : alookup a.1 refs with
  | none => simp [simulate_step, ha]
  | some r2 =>
    have hne : r ≠ r2 := Ne.symm (h r2 ha)
    simp [simulate_step, ha, update_store, hne]

/-- Folding adjustments none of which touches reference `r` leaves the
record object at `r` untouched. -/
lemma simulate_fold_other :
    ∀ (adjs : List (ℤ × ℚ)) (refs : RefDict) (s : Store) (r : Nat),
      (∀ p ∈ adjs, ∀ r2, alookup p.1 refs = some r2 → r2 ≠ r) →
      adjs.foldl (simulate_step refs) s r = s r := by
  intro adjs
  induction adjs with
  | nil => intro _ _ _ _; rfl
  | cons a rest ih =>
    intro refs s r h
    rw [List.foldl_cons,
      ih refs _ r (fun p hp => h p (List.mem_cons_of_mem _ hp)),
      simulate_step_other refs s a r (h a (List.mem_cons_self _ _))]

/-- With distinct record objects per year, looking up a different year
never resolves to the reference of `(y, r)`. -/
lemma ref_ne_of_other_year {refs : RefDict}
    (hsnd : (refs.map Prod.snd).Nodup) {y : ℤ} {r : Nat}
    (hmem : (y, r) ∈ refs) {z : ℤ} {r2 : Nat}
    (hz : alookup z refs = some r2) (hne : z ≠ y) : r2 ≠ r := by
  intro he
  subst he
  have hm2 : (z, r2) ∈ refs := alookup_mem hz
  have heq : (z, r2) = (y, r2) :=
    List.inj_on_of_nodup_map hsnd hm2 hmem rfl
  exact hne (congrArg Prod.fst heq)

/-- Folding the adjustments applies to the record of an adjusted year
exactly its own multiplier, once. -/
lemma simulate_fold_hit :
    ∀ (adjs : List (ℤ × ℚ)) (refs : RefDict) (s : Store) (y : ℤ) (r : Nat)
      (m : ℚ),
      (refs.map Prod.fst).Nodup → (refs.map Prod.snd).Nodup →
      (adjs.map Prod.fst).Nodup → (y, r) ∈ refs → (y, m) ∈ adjs →
      adjs.foldl (simulate_step refs) s r = apply_multiplier m (s r) := by
  intro adjs
  induction adjs with
  | nil =>
    intro _ _ _ _ _ _ _ _ _ hm
    simp at hm
  | cons a rest ih =>
    intro refs s y r m hkeys hrefs hadj hmem hm
    rw [List.map_cons, List.nodup_cons] at hadj
    rcases List.mem_cons.mp hm with h1 | h2
    · have ha1 : a.1 = y := by rw [← h1]
      have hlook : alookup y refs = some r := alookup_of_mem hkeys hmem
      have hstep : simulate_step refs s a
          = update_store s r (apply_multiplier m (s r)) := by
        rw [← h1]
        show (match alookup y refs with
          | some r2 => update_store s r2 (apply_multiplier m (s r2))
          | none => s) = _
        rw [hlook]
      rw [List.foldl_cons, hstep,
        simulate_fold_other rest refs _ r ?hother]
      · simp [update_store]
      case hother =>
        intro p hp r2 h2
        refine ref_ne_of_other_year hrefs hmem h2 ?_
        intro he
        apply hadj.1
        rw [ha1, ← he]
        exact List.mem_map_of_mem Prod.fst hp
    · have hay : a.1 ≠ y := by
        intro he
        apply hadj.1
        rw [he]
        exact List.mem_map_of_mem Prod.fst h2
      have hs1 : simulate_step refs s a r = s r :=
        simulate_step_other refs s a r
          (fun r2 hr2 => ref_ne_of_other_year hrefs hmem hr2 hay)
      rw [List.foldl_cons, ih refs _ y r m hkeys hrefs hadj.2 hmem h2, hs1]

/-- Claim C2: for a dataset whose years and record objects are distinct
and an adjustment dict with positive multipliers, the record of each
adjusted year ends with revenue and wagered multiplied by its multiplier
and players truncated (toward zero, Python `int()`), while the record of
every year absent from the adjustments is unchanged. -/
theorem c2_apply_scenario :
    ∀ (refs : RefDict) (s : Store) (adjs : List (ℤ × ℚ)),
      (refs.map Prod.fst).Nodup → (refs.map Prod.snd).Nodup →
      (adjs.map Prod.fst).Nodup → (∀ p ∈ adjs, 0 < p.2) →
      ∀ (y : ℤ) (r : Nat), (y, r) ∈ refs →
        (∀ m : ℚ, (y, m) ∈ adjs →
          (simulate_scenario refs adjs s).2 r
            = ⟨(s r).revenue * m, trunc_int (((s r).players : ℚ) * m),
               (s r).bets * m, (s r).ptype⟩) ∧
        (y ∉ adjs.map Prod.fst →
          (simulate_scenario refs adjs s).2 r = s r) := by
  intro refs s adjs hkeys hrefs hadj hpos y r hmem
  constructor
  · intro m hm
    show adjs.foldl (simulate_step refs) s r = _
    rw [simulate_fold_hit adjs refs s y r m hkeys hrefs hadj hmem hm]
    rfl
  · intro hnot
    show adjs.foldl (simulate_step refs) s r = s r
    exact simulate_fold_other adjs refs s r (fun p hp r2 h2 =>
      ref_ne_of_other_year hrefs hmem h2
        (fun he => hnot (he ▸ List.mem_map_of_mem Prod.fst hp)))

/-- Witness for C2: doubling 2014 on the source data doubles the 2014
record and leaves the 2010 record alone. -/
theorem c2_apply_scenario_witness :
    (simulate_scenario gaming_refs [((2014 : ℤ), (2 : ℚ))] gaming_store).2 4
      = ⟨(gaming_store 4).revenue * 2,
         trunc_int (((gaming_store 4).players : ℚ) * 2),
         (gaming_store 4).bets * 2, (gaming_store 4).ptype⟩ ∧
    (simulate_scenario gaming_refs [((2014 : ℤ), (2 : ℚ))] gaming_store).2 0
      = gaming_store 0 :=
  ⟨(c2_apply_scenario gaming_refs gaming_store [((2014 : ℤ), (2 : ℚ))]
      (by decide) (by decide) (by decide)
      (by
        intro p hp
        rw [List.mem_singleton.mp hp]
        norm_num)
      2014 4 (by decide)).1 2 (List.mem_cons_self _ _),
   (c2_apply_scenario gaming_refs gaming_store [((2014 : ℤ), (2 : ℚ))]
      (by decide) (by decide) (by decide)
      (by
        intro p hp
        rw [List.mem_singleton.mp hp]
        norm_num)
      2010 0 (by decide)).2 (by decide)⟩

/-- Looking a year up in a dict-as-value view resolves through the
store. -/
lemma alookup_view (refs : RefDict) (s : Store) (y : ℤ) :
    alookup y (view refs s) = (alookup y refs).map s := by
  induction refs with
  | nil => rfl
  | cons p ps ih =>
    by_cases h : p.1 = y
    · simp [view, alookup, h]
    · simp only [view, List.map_cons] at ih ⊢
      rw [alookup, alookup, if_neg h, if_neg h]
      exact ih

/-- The adjustments of claim C1's failing input: the main script's 2014
multiplier. -/
def c1_adjust : List (ℤ × ℚ) := [(2014, 1.5)]

/-- The shared store after `simulate_scenario` ran on the failing input. -/
def c1_store_after : Store :=
  (simulate_scenario gaming_refs c1_adjust gaming_store).2

/-- Claim C1 (code bug): `dict.copy()` is shallow, so `simulate_scenario`
mutates the record objects shared with the original `gaming_data`.  After
simulating the 2014 multiplier 1.5, the *original* dataset's 2014 record
has revenue 5.25 instead of 3.5, the original's revenue sum has moved from
33.1 to 34.85, the returned dict is the same year-to-object mapping as the
input, and the main script's real-versus-scenario revenue comparison is
identically zero. -/
theorem c1_shallow_copy_mutates_original :
    alookup 2014 (view gaming_refs gaming_store)
      = some ⟨3.5, 68000, 68.5, "Pic"⟩ ∧
    alookup 2014 (view gaming_refs c1_store_after)
      = some ⟨5.25, 102000, 102.75, "Pic"⟩ ∧
    view gaming_refs c1_store_after ≠ view gaming_refs gaming_store ∧
    (simulate_scenario gaming_refs c1_adjust gaming_store).1
      = gaming_refs ∧
    ((view gaming_refs gaming_store).map fun p => p.2.revenue).sum
      = 33.1 ∧
    ((view gaming_refs c1_store_after).map fun p => p.2.revenue).sum
      = 34.85 ∧
    ((view (simulate_scenario gaming_refs c1_adjust gaming_store).1
        c1_store_after).map fun p => p.2.revenue).sum
      = ((view gaming_refs c1_store_after).map fun p => p.2.revenue).sum
    := by
  have hlook : alookup 2014 gaming_refs = some 4 := rfl
  have hs : c1_store_after
      = update_store gaming_store 4
          (apply_multiplier 1.5 (gaming_store 4)) := by
    show simulate_step gaming_refs gaming_store ((2014 : ℤ), (1.5 : ℚ)) = _
    show (match alookup 2014 gaming_refs with
      | some r2 => update_store gaming_store r2
          (apply_multiplier 1.5 (gaming_store r2))
      | none => gaming_store) = _
    rw [hlook]
  have h4 : gaming_store 4 = ⟨3.5, 68000, 68.5, "Pic"⟩ := rfl
  have happ : apply_multiplier 1.5 (gaming_store 4)
      = ⟨5.25, 102000, 102.75, "Pic"⟩ := by
    rw [h4]
    simp only [apply_multiplier, trunc_int]
    norm_num
  have ha : alookup 2014 (view gaming_refs gaming_store)
      = some ⟨3.5, 68000, 68.5, "Pic"⟩ := rfl
  have hu : update_store gaming_store 4
      (apply_multiplier 1.5 (gaming_store 4)) 4
      = apply_multiplier 1.5 (gaming_store 4) := by
    simp [update_store]
  have hb : alookup 2014 (view gaming_refs c1_store_after)
      = some ⟨5.25, 102000, 102.75, "Pic"⟩ := by
    rw [hs, alookup_view, hlook]
    show some (update_store gaming_store 4
      (apply_multiplier 1.5 (gaming_store 4)) 4) = _
    rw [hu, happ]
  refine ⟨ha, hb, ?_, rfl, ?_, ?_, rfl⟩
  · intro heq
    rw [heq, ha] at hb
    have hrev := congrArg (fun o => (o.getD ⟨0, 0, 0, ""⟩).revenue) hb
    norm_num at hrev
  · have hv : view gaming_refs gaming_store
        = [(2010, ⟨0.8, 15000, 12.5, "Lancement"⟩),
           (2011, ⟨1.5, 28000, 25.0, "Croissance"⟩),
           (2012, ⟨2.2, 42000, 38.5, "Croissance"⟩),
           (2013, ⟨2.8, 55000, 52.0, "Croissance"⟩),
           (2014, ⟨3.5, 68000, 68.5, "Pic"⟩),
           (2015, ⟨4.2, 75000, 85.0, "Pic"⟩),
           (2016, ⟨4.0, 72000, 78.0, "Stabilisation"⟩),
           (2017, ⟨3.8, 70000, 72.5, "Stabilisation"⟩),
           (2018, ⟨3.2, 65000, 65.0, "Declin"⟩),
           (2019, ⟨2.5, 55000, 55.0, "Declin"⟩),
           (2020, ⟨1.8, 40000, 42.5, "COVID"⟩),
           (2021, ⟨1.2, 30000, 35.0, "Declin"⟩),
           (2022, ⟨0.9, 25000, 28.5, "Residuel"⟩),
           (2023, ⟨0.7, 22000, 25.0, "Residuel"⟩)] := rfl
    rw [hv]
    simp only [List.map_cons, List.map_nil, List.sum_cons, List.sum_nil]
    norm_num
  · rw [hs, happ]
    have hv2 : view gaming_refs (update_store gaming_store 4
          (⟨5.25, 102000, 102.75, "Pic"⟩ : YearRec))
        = [(2010, ⟨0.8, 15000, 12.5, "Lancement"⟩),
           (2011, ⟨1.5, 28000, 25.0, "Croissance"⟩),
           (2012, ⟨2.2, 42000, 38.5, "Croissance"⟩),
           (2013, ⟨2.8, 55000, 52.0, "Croissance"⟩),
           (2014, ⟨5.25, 102000, 102.75, "Pic"⟩),
           (2015, ⟨4.2, 75000, 85.0, "Pic"⟩),
           (2016, ⟨4.0, 72000, 78.0, "Stabilisation"⟩),
           (2017, ⟨3.8, 70000, 72.5, "Stabilisation"⟩),
           (2018, ⟨3.2, 65000, 65.0, "Declin"⟩),
           (2019, ⟨2.5, 55000, 55.0, "Declin"⟩),
           (2020, ⟨1.8, 40000, 42.5, "COVID"⟩),
           (2021, ⟨1.2, 30000, 35.0, "Declin"⟩),
           (2022, ⟨0.9, 25000, 28.5, "Residuel"⟩),
           (2023, ⟨0.7, 22000, 25.0, "Residuel"⟩)] := rfl
    rw [hv2]
    simp only [List.map_cons, List.map_nil, List.sum_cons, List.sum_nil]
    norm_num

/-- Counterexample for C8 as stated: a margin rate of 2 lies outside
`(0, 1]` and a multiplier of -1 is non-positive, yet both calls return
ordinary results instead of failing with any error. -/
theorem c8_counterexample :
    ¬ ((2 : ℚ) ≤ 1) ∧ ((-1 : ℚ) ≤ 0) ∧
    estimate_profits example_dataset 2
      = ([(2010, ⟨0.8, 1.6, 2⟩), (2011, ⟨1.5, 3, 2⟩)], 4.6) ∧
    (simulate_scenario [((2010 : ℤ), 0)] [((2010 : ℤ), -1)] demo_store).2 0
      = ⟨-0.8, -15000, -12.5, "Lancement"⟩ := by
  refine ⟨by norm_num, by norm_num, ?_, ?_⟩
  · simp only [estimate_profits, example_dataset, List.map_cons, List.map_nil,
      round2, rhe, List.sum_cons, List.sum_nil]
    norm_num
  · simp only [simulate_scenario, dict_copy, List.foldl_cons, List.foldl_nil,
      simulate_step, alookup, if_pos, update_store, apply_multiplier,
      demo_store, trunc_int]
    norm_num

end Jeux
